import Mathlib

/-!
Verification development for the Chromash theme manager (src/src/main.rs).

The Rust source is shallowly embedded below:
pure functions become Lean functions on `Nat`/`String`; the persistent
state touched by the theme/preset state machine (current_theme.json, the
presets directory, the hyprpaper files) becomes an explicit `World`
record threaded through the operations; external collaborators
(the matugen paint tool, the hyprctl wallpaper daemon, image decoding)
become oracle fields of an environment record, since their behavior is
outside the program.  Machine integers are modelled as `Nat`
(the only subtraction, `chroma`, is on `max - min` which never
underflows, matching u8 semantics), and the f64 scores of the color
extractor are modelled as exact reals.
-/

namespace Chromash

/-- Error taxonomy, from `ChromashError` (main.rs lines 10-17).
Payloads are the human-readable strings the Rust code carries. -/
inductive ChromashError where
  | Io (e : String)
  | Json (e : String)
  | Process (e : String)
  | NotFound (e : String)
  | General (e : String)
deriving DecidableEq, Repr

/-- `ColorMode` (main.rs line 40). -/
inductive ColorMode where
  | Light
  | Dark
deriving DecidableEq, Repr

/-- `SchemeType` (main.rs lines 42-52). -/
inductive SchemeType where
  | Content
  | Expressive
  | Fidelity
  | FruitSalad
  | Monochrome
  | Neutral
  | Rainbow
  | TonalSpot
deriving DecidableEq, Repr

/-- `PresetMetadata` (main.rs lines 54-61); u64 times as `Nat`. -/
structure PresetMetadata where
  name : String
  created : Nat
  modified : Nat
  source : Option String
  wallpaper : Option String
deriving DecidableEq, Repr

/-- `CurrentTheme` (main.rs lines 63-68). -/
structure CurrentTheme where
  source : String
  timestamp : Nat
  preset_name : Option String
deriving DecidableEq, Repr

/-- `ThemeOptions` (main.rs lines 70-76). -/
structure ThemeOptions where
  mode : Option ColorMode
  scheme : Option SchemeType
  save_preset : Bool
  preset_name : Option String
deriving DecidableEq, Repr

/-- `ThemeOptions::default` (main.rs lines 78-82). -/
def ThemeOptions.default : ThemeOptions :=
  { mode := none, scheme := none, save_preset := false, preset_name := none }

/-- `ColorMode::as_str` (main.rs lines 85-87). -/
def ColorMode.as_str : ColorMode → String
  | .Light => "light"
  | .Dark => "dark"

/-- `ColorMode::from_brightness` (main.rs lines 88-94): perceptual luma
`(299 r + 587 g + 114 b) / 1000 > 128` decides Light, else Dark.
The u32 arithmetic cannot overflow for 8-bit channels, so `Nat` is exact. -/
def ColorMode.from_brightness (r g b : Nat) : ColorMode :=
  if (r * 299 + g * 587 + b * 114) / 1000 > 128 then .Light else .Dark

/-- `SchemeType::as_str` (main.rs lines 105-116). -/
def SchemeType.as_str : SchemeType → String
  | .Content => "scheme-content"
  | .Expressive => "scheme-expressive"
  | .Fidelity => "scheme-fidelity"
  | .FruitSalad => "scheme-fruit-salad"
  | .Monochrome => "scheme-monochrome"
  | .Neutral => "scheme-neutral"
  | .Rainbow => "scheme-rainbow"
  | .TonalSpot => "scheme-tonal-spot"

/-- Rust's `str::to_lowercase`, modelled character-wise with Lean's
ASCII `Char.toLower`; every string in the parsing table is ASCII. -/
def toLowerStr (s : String) : String :=
  ⟨s.data.map Char.toLower⟩

/-- Rust's `str::replace(pat, "")` for a single-character pattern:
removing every occurrence of that character. -/
def removeChar (c : Char) (s : String) : String :=
  ⟨s.data.filter (fun d => d ≠ c)⟩

/-- The normalization `SchemeType::from_str` applies before matching
(main.rs line 118): lowercase, then erase every `-`, then every `_`. -/
def canonize (s : String) : String :=
  removeChar '_' (removeChar '-' (toLowerStr s))

/-- `SchemeType::from_str` (main.rs lines 117-129). -/
def SchemeType.from_str (s : String) : Option SchemeType :=
  match canonize s with
  | "content" | "schemecontent" => some .Content
  | "expressive" | "schemeexpressive" => some .Expressive
  | "fidelity" | "schemefidelity" => some .Fidelity
  | "fruitsalad" | "schemefruitsalad" => some .FruitSalad
  | "monochrome" | "schememonochrome" => some .Monochrome
  | "neutral" | "schemeneutral" => some .Neutral
  | "rainbow" | "schemerainbow" => some .Rainbow
  | "tonalspot" | "schemetonalspot" => some .TonalSpot
  | _ => none

/-- Chroma of an RGB triple, as computed inside `from_chroma` and the
extractor's scoring loop: `r.max(g).max(b) - r.min(g).min(b)`
(main.rs lines 131 and 441).  `max ≥ min`, so `Nat` subtraction agrees
with the u8 subtraction of the source. -/
def chroma (r g b : Nat) : Nat :=
  max (max r g) b - min (min r g) b

/-- `SchemeType::from_chroma` (main.rs lines 130-139). -/
def SchemeType.from_chroma (r g b : Nat) : SchemeType :=
  if chroma r g b < 30 then .Neutral
  else if chroma r g b < 60 then .TonalSpot
  else .Expressive

/-- Statement-side only: the canonical stem of each scheme variant, the
canonical string without its `scheme-` lead and without separators.
Used to phrase the alias half of the round-trip claim. -/
def SchemeType.stemOf : SchemeType → String
  | .Content => "content"
  | .Expressive => "expressive"
  | .Fidelity => "fidelity"
  | .FruitSalad => "fruitsalad"
  | .Monochrome => "monochrome"
  | .Neutral => "neutral"
  | .Rainbow => "rainbow"
  | .TonalSpot => "tonalspot"

/-! ## Color extractor (`ChromashApi::get_average_color`, main.rs 414-456)

The decode and resize steps (lines 415-426) are I/O plus a third-party
resampling filter; the extractor proper is embedded from the RGB8 pixel
pass onward (lines 428-455), taking the decoded (and, when large,
resized) pixel grid as a flat list of RGB triples.  The `HashMap`
accumulation is modelled as an association list in first-insertion
order; every claim proved below is about grids whose quantized buckets
make the iteration order irrelevant.  The f64 scores are modelled as
exact reals; on the score comparisons the claims exercise (a single
bucket compared against the initial score 0.0) f64 and exact real
arithmetic agree. -/

/-- Per-channel quantization to the 16-level bucket floor
(main.rs line 432). -/
def quantize (p : Nat × Nat × Nat) : Nat × Nat × Nat :=
  (p.1 / 16 * 16, p.2.1 / 16 * 16, p.2.2 / 16 * 16)

/-- `*color_counts.entry(quantized).or_insert(0) += 1` (main.rs
line 433) on an association list. -/
def bumpCount :
    List ((Nat × Nat × Nat) × Nat) → (Nat × Nat × Nat) →
    List ((Nat × Nat × Nat) × Nat)
  | [], c => [(c, 1)]
  | (c', k) :: rest, c =>
    if c' = c then (c', k + 1) :: rest else (c', k) :: bumpCount rest c

/-- The counting pass over all pixels (main.rs lines 429-434). -/
def colorCounts (pixels : List (Nat × Nat × Nat)) :
    List ((Nat × Nat × Nat) × Nat) :=
  pixels.foldl (fun m p => bumpCount m (quantize p)) []

/-- The score of one quantized bucket (main.rs lines 440-448):
`chroma_score * lightness_score * frequency_score` with
`chroma_score = 1 if chroma > 30 else chroma/30`,
`lightness_score = 1 if 50 < (r+g+b)/3 < 200 else 0.5`,
`frequency_score = ln count`. -/
noncomputable def totalScore (c : Nat × Nat × Nat) (count : Nat) : ℝ :=
  let ch := chroma c.1 c.2.1 c.2.2
  let lightness := (c.1 + c.2.1 + c.2.2) / 3
  let chroma_score : ℝ := if ch > 30 then 1 else (ch : ℝ) / 30
  let lightness_score : ℝ :=
    if 50 < lightness ∧ lightness < 200 then 1 else 0.5
  let frequency_score : ℝ := Real.log count
  chroma_score * lightness_score * frequency_score

/-- The selection loop (main.rs lines 436-453): start from mid-gray with
score 0.0 and replace the best whenever a bucket scores strictly
higher. -/
noncomputable def pickBestColor
    (entries : List ((Nat × Nat × Nat) × Nat)) : Nat × Nat × Nat :=
  (entries.foldl
    (fun best e =>
      if totalScore e.1 e.2 > best.2 then (e.1, totalScore e.1 e.2) else best)
    (((128, 128, 128), (0 : ℝ)))).1

/-- The extractor on a decoded pixel grid: count quantized buckets, then
pick the best-scoring one (main.rs lines 428-455). -/
noncomputable def extractColor (pixels : List (Nat × Nat × Nat)) :
    Nat × Nat × Nat :=
  pickBestColor (colorCounts pixels)

/-- `get_average_color` including its decode step (main.rs lines
414-416): a failed decode becomes the `General`-tagged decode error, a
successful decode feeds the extractor.  The decode result is the
input. -/
noncomputable def get_average_color
    (decoded : Except String (List (Nat × Nat × Nat))) :
    Except ChromashError (Nat × Nat × Nat) :=
  match decoded with
  | .error e => .error (.General ("Failed to decode: " ++ e))
  | .ok pixels => .ok (extractColor pixels)

/-! ### Extractor lemmas -/

/-- Counting a uniform pixel run on top of its own singleton bucket. -/
theorem foldl_bump_replicate (p : Nat × Nat × Nat) (n k : Nat) :
    (List.replicate n p).foldl (fun m q => bumpCount m (quantize q))
      [(quantize p, k)] = [(quantize p, k + n)] := by
  induction n generalizing k with
  | zero => rfl
  | succ m ih =>
    rw [List.replicate_succ, List.foldl_cons]
    show (List.replicate m p).foldl _ (bumpCount [(quantize p, k)] (quantize p)) = _
    rw [show bumpCount [(quantize p, k)] (quantize p) = [(quantize p, k + 1)] by
      simp [bumpCount]]
    rw [ih (k + 1)]
    ring_nf

/-- A uniform non-empty grid produces exactly one bucket with the full
pixel count. -/
theorem colorCounts_replicate (p : Nat × Nat × Nat) (n : Nat) (hn : 1 ≤ n) :
    colorCounts (List.replicate n p) = [(quantize p, n)] := by
  obtain ⟨m, rfl⟩ : ∃ m, n = m + 1 := ⟨n - 1, by omega⟩
  rw [colorCounts, List.replicate_succ, List.foldl_cons]
  show (List.replicate m p).foldl _ (bumpCount [] (quantize p)) = _
  rw [show bumpCount [] (quantize p) = [(quantize p, 1)] from rfl,
    foldl_bump_replicate]
  ring_nf

/-- Selecting from a single bucket: the bucket wins exactly when its
score beats the initial 0.0. -/
theorem pickBestColor_single (c : Nat × Nat × Nat) (n : Nat) :
    pickBestColor [(c, n)] =
      if totalScore c n > 0 then c else (128, 128, 128) := by
  rw [pickBestColor, List.foldl_cons, List.foldl_nil]
  by_cases h : totalScore c n > 0
  · rw [if_pos h, if_pos h]
  · rw [if_neg h, if_neg h]

/-- An achromatic bucket scores 0. -/
theorem totalScore_eq_zero_of_chroma (c : Nat × Nat × Nat) (n : Nat)
    (h : chroma c.1 c.2.1 c.2.2 = 0) : totalScore c n = 0 := by
  simp only [totalScore, h]
  norm_num

/-- A bucket holding a single pixel scores 0 (`ln 1 = 0`). -/
theorem totalScore_one (c : Nat × Nat × Nat) : totalScore c 1 = 0 := by
  simp [totalScore]

/-- A chromatic bucket with at least two pixels scores strictly
positively. -/
theorem totalScore_pos (c : Nat × Nat × Nat) (n : Nat)
    (hch : 0 < chroma c.1 c.2.1 c.2.2) (hn : 2 ≤ n) :
    0 < totalScore c n := by
  simp only [totalScore]
  apply mul_pos (mul_pos ?_ ?_)
  · exact Real.log_pos (by exact_mod_cast by omega)
  · split
    · exact one_pos
    · positivity
  · split
    · exact one_pos
    · norm_num

/-! ## Theme/preset state machine

The on-disk state the program reads and writes is made explicit:
`current_theme.json` is a `CurrentTheme` record (or absent), and the
presets directory is an association list from directory name to the
parsed content of that directory's `metadata.json` (`none` when the
file is missing; a corrupt file, which `list_presets` also skips,
is modelled the same way).  The hyprpaper directory and config file,
which only the wallpaper-setting glue touches, are a separate
component. -/

/-- The two files `set_wallpaper` writes (main.rs 324-363): the copied
wallpapers in the hyprpaper directory and hyprpaper.conf. -/
structure HyprpaperState where
  files : List String
  conf : Option String
deriving DecidableEq, Repr

/-- The persistent state of the program. -/
structure World where
  currentThemeFile : Option CurrentTheme
  presetDirs : List (String × Option PresetMetadata)
  hyprpaper : HyprpaperState
deriving DecidableEq, Repr

/-- Association-list lookup (a directory-existence / file-read check). -/
def lookupEntry {α : Type} : List (String × α) → String → Option α
  | [], _ => none
  | (k, v) :: rest, key => if k = key then some v else lookupEntry rest key

/-- Association-list upsert: `fs::create_dir_all` + overwrite of the
metadata file (replace the entry in place, or append a fresh one). -/
def setEntry {α : Type} : List (String × α) → String → α → List (String × α)
  | [], key, v => [(key, v)]
  | (k, v') :: rest, key, v =>
    if k = key then (key, v) :: rest else (k, v') :: setEntry rest key v

/-- `ChromashApi::sanitize_name` (main.rs 568-573): keep alphanumerics,
`_`, `-` and spaces, then turn each space into `_`.  Rust's Unicode
`char::is_alphanumeric` is modelled by Lean's `Char.isAlphanum`; the
claims only exercise ASCII names. -/
def sanitize_name (name : String) : String :=
  ⟨(name.data.filter
      (fun c => c.isAlphanum || c = '_' || c = '-' || c = ' ')).map
    (fun c => if c = ' ' then '_' else c)⟩

/-- `ChromashApi::save_current_theme` (main.rs 195-204): overwrite
current_theme.json wholesale with the new record. -/
def save_current_theme (now : Nat) (source : String)
    (preset_name : Option String) (w : World) : World :=
  { w with currentThemeFile := some ⟨source, now, preset_name⟩ }

/-- `ChromashApi::save_preset` (main.rs 513-530): create the sanitized
directory and overwrite its metadata.json with a record whose `created`
and `modified` are both the current time. -/
def save_preset (now : Nat) (name : String)
    (source wallpaper : Option String) (w : World) : World × Bool :=
  let metadata : PresetMetadata :=
    { name := name, created := now, modified := now,
      source := source, wallpaper := wallpaper }
  ({ w with presetDirs :=
      setEntry w.presetDirs (sanitize_name name) (some metadata) }, true)

/-- `ChromashApi::list_presets` (main.rs 458-479): every preset
directory whose metadata.json exists and parses, sorted by `modified`
descending (stable, like Rust's `sort_by`). -/
def list_presets (w : World) : List PresetMetadata :=
  (w.presetDirs.filterMap (fun e => e.2)).mergeSort
    (fun a b => decide (b.modified ≤ a.modified))

/-- The scan loop of `delete_preset` (main.rs 538-546): the first
listed preset with the requested display name whose sanitized directory
exists is removed; a matching name without a directory is skipped. -/
def deleteLoop (w : World) (name : String) :
    List PresetMetadata → World × Bool
  | [] => (w, false)
  | preset :: rest =>
    if preset.name = name then
      let found_dir := sanitize_name preset.name
      if w.presetDirs.any (fun e => e.1 = found_dir) then
        ({ w with presetDirs :=
            w.presetDirs.filter (fun e => e.1 ≠ found_dir) }, true)
      else deleteLoop w name rest
    else deleteLoop w name rest

/-- `ChromashApi::delete_preset` (main.rs 532-549): remove the
sanitized directory if it exists, else scan the listed presets by
display name; report found / not-found as a boolean. -/
def delete_preset (name : String) (w : World) : World × Bool :=
  let preset_dir := sanitize_name name
  if w.presetDirs.any (fun e => e.1 = preset_dir) then
    ({ w with presetDirs :=
        w.presetDirs.filter (fun e => e.1 ≠ preset_dir) }, true)
  else
    deleteLoop w name (list_presets w)

/-- The scan loop of `get_preset_dir` (main.rs 557-564). -/
def getPresetDirLoop (w : World) (name : String) :
    List PresetMetadata → Option String
  | [] => none
  | preset :: rest =>
    if preset.name = name then
      let dir := sanitize_name preset.name
      if w.presetDirs.any (fun e => e.1 = dir) then some dir
      else getPresetDirLoop w name rest
    else getPresetDirLoop w name rest

/-- `ChromashApi::get_preset_dir` (main.rs 551-566): the sanitized
directory when it exists, else the two-phase scan by display name. -/
def get_preset_dir (name : String) (w : World) :
    Except ChromashError String :=
  let sanitized_dir := sanitize_name name
  if w.presetDirs.any (fun e => e.1 = sanitized_dir) then .ok sanitized_dir
  else
    match getPresetDirLoop w name (list_presets w) with
    | some dir => .ok dir
    | none => .error (.NotFound ("Preset directory for: " ++ name))

/-- Rust `str::starts_with` on the character list. -/
def startsWithStr (pre s : String) : Bool :=
  s.data.take pre.length == pre.data

/-- Rust `str::strip_prefix(pre).unwrap_or(default)` as used in
`apply_preset` (main.rs 494 and 497). -/
def stripPre (pre s default : String) : String :=
  if startsWithStr pre s then ⟨s.data.drop pre.length⟩ else default

/-- The re-dispatch `apply_preset` performs: re-invoke color
application or wallpaper application. -/
inductive ThemeAction where
  | applyColorAction (color : String) (options : ThemeOptions)
  | applyWallpaperAction (path : String) (extract_colors : Bool)
      (options : ThemeOptions)
deriving DecidableEq, Repr

/-- The source-dispatch of `apply_preset` (main.rs 492-510): a
`color_`-tagged source re-invokes color application; a
`wallpaper_`-tagged source whose path exists re-invokes wallpaper
application with extraction; otherwise the metadata's wallpaper field
is tried; otherwise NotFound. -/
def dispatchSource (pathExists : String → Bool) (name : String)
    (m : PresetMetadata) : Except ChromashError ThemeAction :=
  let fromWallpaperField : Except ChromashError ThemeAction :=
    match m.wallpaper with
    | some wallpaper =>
      if pathExists wallpaper then
        .ok (.applyWallpaperAction wallpaper true ThemeOptions.default)
      else .error (.NotFound ("Unable to apply preset: " ++ name))
    | none => .error (.NotFound ("Unable to apply preset: " ++ name))
  match m.source with
  | some source =>
    if startsWithStr "color_" source then
      .ok (.applyColorAction (stripPre "color_" source "ffffff")
        ThemeOptions.default)
    else if startsWithStr "wallpaper_" source then
      let wallpaper_path := stripPre "wallpaper_" source ""
      if pathExists wallpaper_path then
        .ok (.applyWallpaperAction wallpaper_path true ThemeOptions.default)
      else fromWallpaperField
    else fromWallpaperField
  | none => fromWallpaperField

/-- `ChromashApi::apply_preset` (main.rs 481-511) up to the re-dispatch
it performs: locate the preset directory, read its metadata, dispatch
on the recorded source. -/
def apply_preset (w : World) (pathExists : String → Bool) (name : String) :
    Except ChromashError ThemeAction :=
  match get_preset_dir name w with
  | .error e => .error e
  | .ok dir =>
    match lookupEntry w.presetDirs dir with
    | some (some metadata) => dispatchSource pathExists name metadata
    | _ => .error (.NotFound ("Preset metadata for: " ++ name))

/-- The default-resolution `apply_color` performs on its options
(main.rs 218): `options.mode.unwrap_or(ColorMode::Light)`. -/
def resolved_mode (options : ThemeOptions) : ColorMode :=
  options.mode.getD .Light

/-- The default-resolution `apply_color` performs on its options
(main.rs 219): `options.scheme.unwrap_or(SchemeType::TonalSpot)`. -/
def resolved_scheme (options : ThemeOptions) : SchemeType :=
  options.scheme.getD .TonalSpot

/-- The external collaborators `apply_wallpaper` relies on:
the wallpaper selection (a read-only directory scan, main.rs 282-322),
the wallpaper-setting step (file copies, hyprpaper.conf and hyprctl
calls, main.rs 324-363 — by construction it touches only the hyprpaper
component of the state), the image decode, the matugen paint step, and
the clock. -/
structure WallpaperEnv where
  select : Option String → Except ChromashError String
  setStep : String → HyprpaperState →
    HyprpaperState × Except ChromashError Unit
  decode : String → Except String (List (Nat × Nat × Nat))
  matugenImage : String → ColorMode → SchemeType →
    Except ChromashError Unit
  now : Nat

/-- `ChromashApi::apply_wallpaper` (main.rs 243-268): select a
wallpaper, set it; only when `extract_colors` is true, extract a color
(silently skipping the rest when extraction fails — `if let Ok`),
derive mode/scheme defaults, paint, and record preset and/or
CurrentTheme; always return `Ok(true)` past the set step. -/
noncomputable def apply_wallpaper (env : WallpaperEnv)
    (path : Option String) (extract_colors : Bool)
    (options : ThemeOptions) (w : World) :
    World × Except ChromashError Bool :=
  match env.select path with
  | .error e => (w, .error e)
  | .ok wallpaper_path =>
    let step := env.setStep wallpaper_path w.hyprpaper
    let w := { w with hyprpaper := step.1 }
    match step.2 with
    | .error e => (w, .error e)
    | .ok _ =>
      if extract_colors then
        match get_average_color (env.decode wallpaper_path) with
        | .ok (r, g, b) =>
          let mode := options.mode.getD (ColorMode.from_brightness r g b)
          let scheme := options.scheme.getD (SchemeType.from_chroma r g b)
          match env.matugenImage wallpaper_path mode scheme with
          | .error e => (w, .error e)
          | .ok _ =>
            let source := "wallpaper_" ++ wallpaper_path
            if options.save_preset then
              match options.preset_name with
              | some name =>
                let w :=
                  (save_preset env.now name (some source)
                    (some wallpaper_path) w).1
                (save_current_theme env.now source (some name) w, .ok true)
              | none => (save_current_theme env.now source none w, .ok true)
            else (save_current_theme env.now source none w, .ok true)
        | .error _ => (w, .ok true)
      else (w, .ok true)

/-! ### State-machine lemmas -/

/-- A successful lookup means some entry carries the key. -/
theorem lookupEntry_any {α : Type} (l : List (String × α)) (k : String)
    (v : α) (h : lookupEntry l k = some v) :
    l.any (fun e => e.1 = k) = true := by
  induction l with
  | nil => simp [lookupEntry] at h
  | cons e rest ih =>
    obtain ⟨k', v'⟩ := e
    by_cases hk : k' = k
    · simp [hk]
    · rw [lookupEntry, if_neg hk] at h
      simpa [hk] using ih h

/-- Upserting then looking up the same key finds the new value. -/
theorem lookupEntry_setEntry {α : Type} (l : List (String × α))
    (k : String) (v : α) : lookupEntry (setEntry l k v) k = some v := by
  induction l with
  | nil => simp [setEntry, lookupEntry]
  | cons e rest ih =>
    obtain ⟨k', v'⟩ := e
    by_cases hk : k' = k
    · simp [setEntry, hk, lookupEntry]
    · rw [setEntry, if_neg hk, lookupEntry, if_neg hk]
      exact ih

/-- The upserted entry is present in the list. -/
theorem mem_setEntry {α : Type} (l : List (String × α)) (k : String)
    (v : α) : (k, v) ∈ setEntry l k v := by
  induction l with
  | nil => simp [setEntry]
  | cons e rest ih =>
    obtain ⟨k', v'⟩ := e
    by_cases hk : k' = k
    · simp [setEntry, hk]
    · rw [setEntry, if_neg hk]
      exact List.mem_cons_of_mem _ ih

/-- The delete scan over a list with no matching display name finds
nothing and leaves the world alone. -/
theorem deleteLoop_not_found (w : World) (name : String)
    (l : List PresetMetadata) (h : ∀ p ∈ l, p.name ≠ name) :
    deleteLoop w name l = (w, false) := by
  induction l with
  | nil => rfl
  | cons p rest ih =>
    rw [deleteLoop, if_neg (h p (List.mem_cons_self p rest))]
    exact ih (fun q hq => h q (List.mem_cons_of_mem p hq))

/-! ## Theorems for claims C1 and C2 -/

/-- C1 (amended): on a uniform non-empty grid the extractor returns the
quantized triple exactly when the quantized color is chromatic and the
grid has at least two pixels; a single-pixel grid (its only bucket
scores `ln 1 = 0`) or an achromatic quantized color (chroma score 0)
leaves the mid-gray default (128,128,128) in place, since the loop only
replaces the default on a strictly positive score. -/
theorem C1_uniform_extraction (p : Nat × Nat × Nat) (n : Nat) :
    (2 ≤ n →
      0 < chroma (quantize p).1 (quantize p).2.1 (quantize p).2.2 →
      extractColor (List.replicate n p) = quantize p) ∧
    (1 ≤ n →
      (n = 1 ∨ chroma (quantize p).1 (quantize p).2.1 (quantize p).2.2 = 0) →
      extractColor (List.replicate n p) = (128, 128, 128)) := by
  constructor
  · intro hn hch
    rw [extractColor, colorCounts_replicate p n (by omega),
      pickBestColor_single, if_pos (totalScore_pos _ _ hch hn)]
  · intro hn hd
    rw [extractColor, colorCounts_replicate p n hn, pickBestColor_single,
      if_neg]
    rcases hd with rfl | hz
    · rw [totalScore_one]
      exact lt_irrefl 0
    · rw [totalScore_eq_zero_of_chroma _ _ hz]
      exact lt_irrefl 0

/-- Witness for C1: four uniform red pixels extract to the quantized
red bucket. -/
theorem C1_uniform_extraction_witness :
    extractColor (List.replicate 4 (255, 0, 0)) = quantize (255, 0, 0) :=
  (C1_uniform_extraction (255, 0, 0) 4).1 (by decide) (by decide)

/-- Counterexample to C1 as stated: a uniform black 2x2 grid decodes,
is non-empty, and is uniform of color (0,0,0), yet the extractor
returns the mid-gray default (128,128,128), not the quantized
floor (0,0,0). -/
theorem C1_uniform_counterexample :
    extractColor (List.replicate 4 (0, 0, 0)) = (128, 128, 128) ∧
    quantize (0, 0, 0) = (0, 0, 0) ∧
    ((128, 128, 128) : Nat × Nat × Nat) ≠ (0, 0, 0) := by
  refine ⟨?_, rfl, by decide⟩
  rw [extractColor, colorCounts_replicate _ 4 (by omega),
    pickBestColor_single, if_neg]
  rw [totalScore_eq_zero_of_chroma _ _ (by decide)]
  exact lt_irrefl 0

/-- C2: `get_average_color` returns the decode-tagged error exactly on
decode failure, and on every successfully decoded grid — the empty grid
included — it returns a triple, never an error. -/
theorem C2_error_iff_decode_failure :
    (∀ e, get_average_color (.error e) =
      .error (.General ("Failed to decode: " ++ e))) ∧
    (∀ pixels, get_average_color (.ok pixels) = .ok (extractColor pixels)) ∧
    get_average_color (.ok []) = .ok (128, 128, 128) :=
  ⟨fun _ => rfl, fun _ => rfl, rfl⟩

/-! ## Theorems for claims C3 and C4 -/

/-- C3: `SchemeType::from_str` round-trips `as_str` on all 8 variants,
and also maps every string that normalizes (case-folding, erasing the
`-`/`_` separators) to a variant's canonical form — or to its canonical
form with the `scheme-` lead removed — back to that variant. -/
theorem C3_scheme_from_str_roundtrip :
    (∀ v : SchemeType, SchemeType.from_str v.as_str = some v) ∧
    (∀ (v : SchemeType) (s : String),
      canonize s = canonize v.as_str → SchemeType.from_str s = some v) ∧
    (∀ (v : SchemeType) (s : String),
      canonize s = v.stemOf → SchemeType.from_str s = some v) := by
  refine ⟨fun v => ?_, fun v s h => ?_, fun v s h => ?_⟩
  · cases v <;> rfl
  · simp only [SchemeType.from_str, h]
    cases v <;> rfl
  · simp only [SchemeType.from_str, h]
    cases v <;> rfl

/-- Witness for C3 at concrete aliases of `scheme-tonal-spot`. -/
theorem C3_scheme_from_str_roundtrip_witness :
    SchemeType.from_str "Scheme_Tonal-Spot" = some .TonalSpot ∧
    SchemeType.from_str "TONAL_SPOT" = some .TonalSpot :=
  ⟨C3_scheme_from_str_roundtrip.2.1 .TonalSpot "Scheme_Tonal-Spot" (by decide),
   C3_scheme_from_str_roundtrip.2.2 .TonalSpot "TONAL_SPOT" (by decide)⟩

/-- C4: `SchemeType::from_chroma` is a step function of
`chroma = max(r,g,b) - min(r,g,b)` with boundaries at 30 and 60;
in particular chroma 29 gives Neutral, 30 and 59 give TonalSpot,
and 60 gives Expressive. -/
theorem C4_from_chroma_step (r g b : Nat) :
    (chroma r g b < 30 → SchemeType.from_chroma r g b = .Neutral) ∧
    (30 ≤ chroma r g b → chroma r g b < 60 →
      SchemeType.from_chroma r g b = .TonalSpot) ∧
    (60 ≤ chroma r g b → SchemeType.from_chroma r g b = .Expressive) ∧
    SchemeType.from_chroma 29 0 0 = .Neutral ∧
    SchemeType.from_chroma 30 0 0 = .TonalSpot ∧
    SchemeType.from_chroma 59 0 0 = .TonalSpot ∧
    SchemeType.from_chroma 60 0 0 = .Expressive := by
  refine ⟨fun h => ?_, fun h1 h2 => ?_, fun h => ?_, by decide, by decide,
    by decide, by decide⟩ <;>
    simp only [SchemeType.from_chroma] <;> split <;> try split
  all_goals first | rfl | omega

/-- Witness for C4 at a concrete color of chroma exactly 30. -/
theorem C4_from_chroma_step_witness :
    SchemeType.from_chroma 100 70 70 = .TonalSpot :=
  (C4_from_chroma_step 100 70 70).2.1 (by decide) (by decide)

/-! ## Theorems for claims C5 through C10 -/

/-- C5: on a preset whose stored metadata records source
`color_ff00ff` (and whatever else), `apply_preset` re-dispatches to
color application with hex `ff00ff` and default options, whose
resolved mode and scheme are Light and TonalSpot. -/
theorem C5_apply_preset_color_default (w : World)
    (pathExists : String → Bool) (name : String) (m : PresetMetadata)
    (hdir : lookupEntry w.presetDirs (sanitize_name name) = some (some m))
    (hsrc : m.source = some "color_ff00ff") :
    apply_preset w pathExists name =
      .ok (.applyColorAction "ff00ff" ThemeOptions.default) ∧
    resolved_mode ThemeOptions.default = .Light ∧
    resolved_scheme ThemeOptions.default = .TonalSpot := by
  refine ⟨?_, rfl, rfl⟩
  have hany := lookupEntry_any _ _ _ hdir
  simp only [apply_preset, get_preset_dir, hany, if_true, hdir,
    dispatchSource, hsrc]
  norm_num [startsWithStr, stripPre]
  rfl

/-- Witness for C5 on a one-preset world. -/
theorem C5_apply_preset_color_default_witness :
    apply_preset
      ⟨none,
       [("My_Preset",
         some ⟨"My Preset", 0, 0, some "color_ff00ff", none⟩)],
       ⟨[], none⟩⟩
      (fun _ => false) "My Preset" =
      .ok (.applyColorAction "ff00ff" ThemeOptions.default) ∧
    resolved_mode ThemeOptions.default = .Light ∧
    resolved_scheme ThemeOptions.default = .TonalSpot :=
  C5_apply_preset_color_default _ _ "My Preset"
    ⟨"My Preset", 0, 0, some "color_ff00ff", none⟩ (by decide) rfl

/-- C6: `apply_wallpaper` with `extract_colors = false` never writes
the CurrentTheme record — whatever the selection, set step and options
do, the current_theme.json component is left exactly as it was. -/
theorem C6_wallpaper_only_preserves_theme (env : WallpaperEnv)
    (path : Option String) (options : ThemeOptions) (w : World) :
    ((apply_wallpaper env path false options w).1).currentThemeFile
      = w.currentThemeFile := by
  rw [apply_wallpaper]
  cases hsel : env.select path with
  | error e => rfl
  | ok p =>
    cases hstep : (env.setStep p w.hyprpaper).2 with
    | error e => simp [hstep]
    | ok u => simp [hstep]

/-- C7: a successful `save_preset` stores metadata whose `created`
equals the current time and equals `modified`, whatever was stored
before — save is an overwrite, not a history-preserving merge. -/
theorem C7_save_preset_overwrites_created (now : Nat) (name : String)
    (source wallpaper : Option String) (w : World) :
    (save_preset now name source wallpaper w).2 = true ∧
    lookupEntry ((save_preset now name source wallpaper w).1).presetDirs
        (sanitize_name name) =
      some (some { name := name, created := now, modified := now,
                   source := source, wallpaper := wallpaper }) :=
  ⟨rfl, lookupEntry_setEntry _ _ _⟩

/-- C8: when neither the sanitized directory exists nor any listed
preset carries the display name, `delete_preset` reports not-found as
`(w, false)` — the state is untouched and no error is produced. -/
theorem C8_delete_missing_not_found (name : String) (w : World)
    (hdir : ∀ e ∈ w.presetDirs, e.1 ≠ sanitize_name name)
    (hname : ∀ p ∈ list_presets w, p.name ≠ name) :
    delete_preset name w = (w, false) := by
  rw [delete_preset]
  rw [if_neg]
  · exact deleteLoop_not_found w name _ hname
  · intro hcon
    rw [List.any_eq_true] at hcon
    obtain ⟨x, hx, hk⟩ := hcon
    exact hdir x hx (of_decide_eq_true hk)

/-- Witness for C8: deleting a name absent from a one-preset world. -/
theorem C8_delete_missing_not_found_witness :
    delete_preset "Missing"
      ⟨none, [("Other", some ⟨"Other", 0, 0, none, none⟩)], ⟨[], none⟩⟩ =
    (⟨none, [("Other", some ⟨"Other", 0, 0, none, none⟩)], ⟨[], none⟩⟩,
      false) :=
  C8_delete_missing_not_found "Missing" _ (by decide)
    (by
      intro p hp
      rw [list_presets, List.mem_mergeSort] at hp
      have hp' : p = ⟨"Other", 0, 0, none, none⟩ := by simpa using hp
      subst hp'
      decide)

/-- C9: saving a preset displayed as `My Theme!` stores it under the
sanitized identity `My_Theme` (punctuation dropped, space to
underscore) while the stored metadata and the listing keep the original
display name. -/
theorem C9_sanitized_identity_keeps_display_name (now : Nat)
    (source wallpaper : Option String) (w : World) :
    sanitize_name "My Theme!" = "My_Theme" ∧
    lookupEntry
        ((save_preset now "My Theme!" source wallpaper w).1).presetDirs
        "My_Theme" =
      some (some { name := "My Theme!", created := now, modified := now,
                   source := source, wallpaper := wallpaper }) ∧
    "My Theme!" ∈
      (list_presets
        ((save_preset now "My Theme!" source wallpaper w).1)).map
        (fun p => p.name) := by
  refine ⟨by decide, ?_, ?_⟩
  · have h := lookupEntry_setEntry w.presetDirs (sanitize_name "My Theme!")
      (some ({ name := "My Theme!", created := now, modified := now,
               source := source, wallpaper := wallpaper } : PresetMetadata))
    rw [show sanitize_name "My Theme!" = "My_Theme" by decide] at h
    exact h
  · apply List.mem_map.mpr
    refine ⟨{ name := "My Theme!", created := now, modified := now,
              source := source, wallpaper := wallpaper }, ?_, rfl⟩
    rw [list_presets, List.mem_mergeSort]
    apply List.mem_filterMap.mpr
    exact ⟨(sanitize_name "My Theme!",
      some { name := "My Theme!", created := now, modified := now,
             source := source, wallpaper := wallpaper }),
      mem_setEntry _ _ _, rfl⟩

/-- C10: with `extract_colors = true`, when selection and the set step
succeed but the selected image fails to decode, `apply_wallpaper`
still returns `Ok(true)` and writes neither the CurrentTheme record nor
any preset: the extraction error is swallowed. -/
theorem C10_decode_failure_swallowed (env : WallpaperEnv)
    (path : Option String) (options : ThemeOptions) (w : World)
    (p : String) (e : String)
    (hsel : env.select path = .ok p)
    (hset : (env.setStep p w.hyprpaper).2 = .ok ())
    (hdec : env.decode p = .error e) :
    (apply_wallpaper env path true options w).2 = .ok true ∧
    ((apply_wallpaper env path true options w).1).currentThemeFile
      = w.currentThemeFile ∧
    ((apply_wallpaper env path true options w).1).presetDirs
      = w.presetDirs := by
  rw [apply_wallpaper, hsel]
  simp only [hset, hdec, get_average_color]
  exact ⟨rfl, rfl, rfl⟩

/-- Witness for C10 with a decode oracle that always fails. -/
theorem C10_decode_failure_swallowed_witness :
    (apply_wallpaper
      ⟨fun _ => .ok "w.png", fun _ h => (h, .ok ()),
       fun _ => .error "bad image", fun _ _ _ => .ok (), 0⟩
      none true ThemeOptions.default
      ⟨some ⟨"color_aabbcc", 5, none⟩, [], ⟨[], none⟩⟩).2 = .ok true ∧
    ((apply_wallpaper
      ⟨fun _ => .ok "w.png", fun _ h => (h, .ok ()),
       fun _ => .error "bad image", fun _ _ _ => .ok (), 0⟩
      none true ThemeOptions.default
      ⟨some ⟨"color_aabbcc", 5, none⟩, [], ⟨[], none⟩⟩).1).currentThemeFile
      = some ⟨"color_aabbcc", 5, none⟩ ∧
    ((apply_wallpaper
      ⟨fun _ => .ok "w.png", fun _ h => (h, .ok ()),
       fun _ => .error "bad image", fun _ _ _ => .ok (), 0⟩
      none true ThemeOptions.default
      ⟨some ⟨"color_aabbcc", 5, none⟩, [], ⟨[], none⟩⟩).1).presetDirs
      = [] :=
  C10_decode_failure_swallowed _ none ThemeOptions.default
    ⟨some ⟨"color_aabbcc", 5, none⟩, [], ⟨[], none⟩⟩ "w.png" "bad image"
    rfl rfl rfl

end Chromash
